import Mathlib

/-!
Verification of the prompt-variation web-app generator (`app.py`).

The program reads one environment secret (`GROQ_API_KEY`), takes a single
user prompt from a form, and on submission calls a chat-completion API four
times — once per fixed "variation" suffix — collecting the four result
strings for display.  We embed the pure decision logic shallowly:

* the chat-completion client is an oracle `Api : ChatRequest → ApiResult`
  which either returns a response (a list of choices) or raises an
  exception carrying a message string;
* `generate_web_app` mirrors the Python function of the same name,
  additionally reporting the list of requests it issued so that claims of
  the form "no network call is attempted" are expressible;
* the top-level `if submit_button and user_prompt and groq_api_key: …
  elif … elif …` chain is embedded as `handleSubmit`, returning the
  user-visible outcome together with all requests issued.

Python string truthiness (`if user_prompt`, `if groq_api_key`) is modelled
by `pyTruthyStr` / `pyTruthyOptStr`: a string is truthy iff non-empty, and
`os.getenv` yields `none` when the variable is absent.
-/

/-- One chat message: a role/content pair. -/
structure ChatMessage where
  role : String
  content : String
deriving Repr, DecidableEq

/-- One completion choice; only `choice.message.content` is consumed. -/
structure Choice where
  message : ChatMessage
deriving Repr, DecidableEq

/-- The argument bundle of `client.chat.completions.create` (app.py lines
70–75): model identifier, message list, temperature and max-token count.
The temperature is the literal `0.7`, modelled as the rational `7/10`. -/
structure ChatRequest where
  model : String
  messages : List ChatMessage
  temperature : ℚ
  max_tokens : ℕ
deriving Repr, DecidableEq

/-- What one call of the completion client can do: return a response whose
`choices` field is a list, or raise an exception with a message string
(any `Exception e`, rendered by `str(e)`). -/
inductive ApiResult where
  | success (choices : List Choice)
  | exn (msg : String)
deriving Repr, DecidableEq

/-- The completion client as an oracle from requests to results. -/
abbrev Api := ChatRequest → ApiResult

/-- Python truthiness of a string: truthy iff non-empty. -/
def pyTruthyStr (s : String) : Bool := !(s == "")

/-- Python truthiness of an `os.getenv` result: `None` and the empty
string are falsy. -/
def pyTruthyOptStr : Option String → Bool
  | none => false
  | some s => pyTruthyStr s

/-- The f-string template of app.py lines 57–68, with the exact whitespace
of the source (8-space indentation inside the triple-quoted literal, a
trailing space after the colon and after the interpolated prompt). -/
def full_prompt (prompt : String) (variation_prompt : String) : String :=
  "Create a simple, self-contained web application based on this prompt: \n        "
    ++ prompt
    ++ " \n        "
    ++ variation_prompt
    ++ "\n        \n        The code should be complete and runnable as a single HTML file.\n        Focus on creating a working prototype that demonstrates the core functionality.\n        Use modern web technologies and best practices.\n        Include all necessary CSS and JavaScript directly in the HTML file.\n        Make sure all functionality works when rendered in an iframe.\n        Keep the code concise but include helpful comments.\n        Return ONLY the code without explanations.\n        "

/-- The request issued by `generate_web_app` (app.py lines 70–75): fixed
model id, a single user-role message holding the built prompt, temperature
0.7, max tokens 2048. -/
def builtRequest (prompt : String) (variation_prompt : String) : ChatRequest :=
  { model := "mixtral-8x7b-32768"
    messages := [{ role := "user", content := full_prompt prompt variation_prompt }]
    temperature := 7/10
    max_tokens := 2048 }

/-- Function `generate_web_app` (app.py lines 48–79).  Returns the result string
together with the list of requests issued by this call (always exactly
one).  The `try … except Exception as e` block converts any client
exception into `"Error generating code: " ++ str(e)`; `choices[0]` on an
empty list raises `IndexError("list index out of range")`, which the same
handler catches. -/
def generate_web_app (api : Api) (prompt : String) (variation_prompt : String := "") :
    String × List ChatRequest :=
  let req := builtRequest prompt variation_prompt
  let result :=
    match api req with
    | ApiResult.success choices =>
        match choices with
        | [] => "Error generating code: list index out of range"
        | c :: _ => c.message.content
    | ApiResult.exn e => "Error generating code: " ++ e
  (result, [req])

/-- The four fixed variation suffixes (app.py lines 107–112), in
declaration order. -/
def variations : List String :=
  [ ""
  , "Make it visually appealing and use a different framework than the other versions."
  , "Focus on simplicity and performance. Use minimal dependencies."
  , "Add some creative features that might not be explicitly mentioned in the prompt." ]

/-- The orchestration loop (app.py lines 115–120): sequentially calls
`generate_web_app` once per variation and appends each result to the
accumulating list.  Also accumulates every request issued. -/
def resultsLoop (api : Api) (user_prompt : String) : List String × List ChatRequest :=
  variations.foldl
    (fun acc variation =>
      let r := generate_web_app api user_prompt variation
      (acc.1 ++ [r.1], acc.2 ++ r.2))
    ([], [])

/-- The load-time key check (app.py lines 44–46): when `GROQ_API_KEY` is
falsy, a warning banner is shown. -/
def loadKeyWarning (groq_api_key : Option String) : Option String :=
  if pyTruthyOptStr groq_api_key then none
  else some "⚠️ GROQ_API_KEY environment variable not found. Please set it to use this app."

/-- The user-visible outcome of one run of the submission block. -/
inductive Outcome where
  | rendered (results : List String)
  | missingKeyError (msg : String)
  | emptyPromptWarning (msg : String)
  | noSubmit
deriving Repr, DecidableEq

/-- The submission `if/elif` chain (app.py lines 104–183):
`if submit_button and user_prompt and groq_api_key:` run the loop and
render; `elif submit_button and not groq_api_key:` error; `elif
submit_button and not user_prompt:` warning; otherwise nothing.  Returns
the outcome together with every request issued. -/
def handleSubmit (api : Api) (submit_button : Bool) (user_prompt : String)
    (groq_api_key : Option String) : Outcome × List ChatRequest :=
  if submit_button && pyTruthyStr user_prompt && pyTruthyOptStr groq_api_key then
    let r := resultsLoop api user_prompt
    (Outcome.rendered r.1, r.2)
  else if submit_button && !pyTruthyOptStr groq_api_key then
    (Outcome.missingKeyError "Please set your GROQ_API_KEY environment variable to use this app.", [])
  else if submit_button && !pyTruthyStr user_prompt then
    (Outcome.emptyPromptWarning "Please enter a prompt to generate web applications.", [])
  else
    (Outcome.noSubmit, [])

/-- Predicate: `s` begins with the error marker of `generate_web_app`. -/
def hasErrorHead (s : String) : Prop :=
  ∃ t, s = "Error generating code: " ++ t

/-- A completion client that always raises, with message "Connection error.". -/
def apiBoom : Api := fun _ => ApiResult.exn "Connection error."

/-- A completion client that always succeeds with one choice whose content
is a fixed HTML snippet. -/
def apiOk : Api := fun _ => ApiResult.success [⟨⟨"assistant", "<html></html>"⟩⟩]

/-- A completion client that raises exactly on the request built for
variation 1 of the prompt "todo" and succeeds on every other request. -/
def apiMixed : Api := fun r =>
  if r = builtRequest "todo" (variations.getD 1 "") then ApiResult.exn "Connection error."
  else ApiResult.success [⟨⟨"assistant", "<html></html>"⟩⟩]

/-- The result of one call depends on the oracle only through its answer
on the one request that the call builds. -/
theorem generate_web_app_congr (api api' : Api) (p v : String)
    (h : api' (builtRequest p v) = api (builtRequest p v)) :
    generate_web_app api' p v = generate_web_app api p v := by
  simp [generate_web_app, h]

/-- The orchestration loop in closed form: four results in variation
order, four issued requests in variation order. -/
theorem resultsLoop_eq (api : Api) (p : String) :
    resultsLoop api p =
      ( [ (generate_web_app api p (variations.getD 0 "")).1
        , (generate_web_app api p (variations.getD 1 "")).1
        , (generate_web_app api p (variations.getD 2 "")).1
        , (generate_web_app api p (variations.getD 3 "")).1 ]
      , [ builtRequest p (variations.getD 0 "")
        , builtRequest p (variations.getD 1 "")
        , builtRequest p (variations.getD 2 "")
        , builtRequest p (variations.getD 3 "") ] ) := by
  simp [resultsLoop, variations, generate_web_app]

/-- C1: for every (prompt, variation_prompt), `generate_web_app` is total
(it returns exactly one string, never an exception — immediate from its
Lean type), on success it returns the text content of the first completion
choice, and on any client exception it returns "Error generating code: "
followed by the exception message. -/
theorem spec_C1_total_success_or_error (api : Api) (prompt variation_prompt : String) :
    (∀ e, api (builtRequest prompt variation_prompt) = ApiResult.exn e →
      (generate_web_app api prompt variation_prompt).1 = "Error generating code: " ++ e)
    ∧ (∀ c cs, api (builtRequest prompt variation_prompt) = ApiResult.success (c :: cs) →
      (generate_web_app api prompt variation_prompt).1 = c.message.content) := by
  constructor
  · intro e he
    simp [generate_web_app, he]
  · intro c cs hc
    simp [generate_web_app, hc]

/-- Witness for C1 at a concrete failing client and a concrete succeeding
client. -/
theorem spec_C1_witness :
    (generate_web_app apiBoom "a to-do list app" "").1 =
        "Error generating code: Connection error."
    ∧ (generate_web_app apiOk "a to-do list app" "").1 = "<html></html>" :=
  ⟨(spec_C1_total_success_or_error apiBoom "a to-do list app" "").1 "Connection error." rfl,
   (spec_C1_total_success_or_error apiOk "a to-do list app" "").2
      ⟨⟨"assistant", "<html></html>"⟩⟩ [] rfl⟩

/-- C6: the built instruction embeds the prompt text and then the
variation text, in that order, inside the fixed wrapper text; in
particular for the prompt "a to-do list app" and variation 2 the
constructed instruction contains both, prompt first. -/
theorem spec_C6_template_order :
    (∀ prompt variation_prompt : String, ∃ a b c : String,
      full_prompt prompt variation_prompt = a ++ prompt ++ b ++ variation_prompt ++ c
      ∧ a = "Create a simple, self-contained web application based on this prompt: \n        "
      ∧ b = " \n        ")
    ∧ (∃ a b c : String,
      full_prompt "a to-do list app"
          "Make it visually appealing and use a different framework than the other versions."
        = a ++ "a to-do list app" ++ b
            ++ "Make it visually appealing and use a different framework than the other versions."
            ++ c) := by
  refine ⟨fun prompt variation_prompt => ⟨_, _, _, rfl, rfl, rfl⟩, ⟨_, _, _, rfl⟩⟩

/-- C7: template construction is deterministic — the request issued by
`generate_web_app` (and hence the instruction string handed to the
completion client) is the same for any two invocations with the same
(prompt, variation) pair and depends on nothing but that pair. -/
theorem spec_C7_template_deterministic (api₁ api₂ : Api) (prompt variation_prompt : String) :
    (generate_web_app api₁ prompt variation_prompt).2 =
        (generate_web_app api₂ prompt variation_prompt).2
    ∧ (generate_web_app api₁ prompt variation_prompt).2 = [builtRequest prompt variation_prompt]
    ∧ (builtRequest prompt variation_prompt).messages =
        [⟨"user", full_prompt prompt variation_prompt⟩] :=
  ⟨rfl, rfl, rfl⟩

/-- C8: every request issued by `generate_web_app` carries the fixed model
id, temperature 0.7, max tokens 2048 and a single user-role message with
the built prompt; on success the returned value is the first choice's
text. -/
theorem spec_C8_request_shape (api : Api) (prompt variation_prompt : String) :
    (∀ r ∈ (generate_web_app api prompt variation_prompt).2,
      r.model = "mixtral-8x7b-32768" ∧ r.temperature = 7/10 ∧ r.max_tokens = 2048
      ∧ r.messages = [⟨"user", full_prompt prompt variation_prompt⟩])
    ∧ (∀ c cs, api (builtRequest prompt variation_prompt) = ApiResult.success (c :: cs) →
      (generate_web_app api prompt variation_prompt).1 = c.message.content) := by
  constructor
  · intro r hr
    have : r = builtRequest prompt variation_prompt := by
      simpa [generate_web_app] using hr
    subst this
    exact ⟨rfl, rfl, rfl, rfl⟩
  · intro c cs hc
    simp [generate_web_app, hc]

/-- Witness for C8 at a concrete request and a concrete succeeding
client. -/
theorem spec_C8_witness :
    ((builtRequest "a weather app" "").model = "mixtral-8x7b-32768"
      ∧ (builtRequest "a weather app" "").temperature = 7/10
      ∧ (builtRequest "a weather app" "").max_tokens = 2048
      ∧ (builtRequest "a weather app" "").messages = [⟨"user", full_prompt "a weather app" ""⟩])
    ∧ (generate_web_app apiOk "a weather app" "").1 = "<html></html>" :=
  ⟨(spec_C8_request_shape apiOk "a weather app" "").1 (builtRequest "a weather app" "")
      (by simp [generate_web_app]),
   (spec_C8_request_shape apiOk "a weather app" "").2 ⟨⟨"assistant", "<html></html>"⟩⟩ [] rfl⟩

/-- C2: for any non-empty prompt and truthy API key, one submission runs
the loop over exactly the four fixed variations in declaration order
(empty string first, then visual, minimalist, creative) and renders a
list of exactly four strings, slot i being `generate_web_app` applied to
the prompt and variation i, whatever the oracle answers. -/
theorem spec_C2_four_results (api : Api) (user_prompt : String) (groq_api_key : Option String)
    (hp : user_prompt ≠ "") (hk : pyTruthyOptStr groq_api_key = true) :
    (handleSubmit api true user_prompt groq_api_key).1 =
      Outcome.rendered
        [ (generate_web_app api user_prompt (variations.getD 0 "")).1
        , (generate_web_app api user_prompt (variations.getD 1 "")).1
        , (generate_web_app api user_prompt (variations.getD 2 "")).1
        , (generate_web_app api user_prompt (variations.getD 3 "")).1 ]
    ∧ variations =
        [ ""
        , "Make it visually appealing and use a different framework than the other versions."
        , "Focus on simplicity and performance. Use minimal dependencies."
        , "Add some creative features that might not be explicitly mentioned in the prompt." ] := by
  refine ⟨?_, rfl⟩
  simp [handleSubmit, pyTruthyStr, hp, hk, resultsLoop_eq]

/-- Witness for C2 at a concrete prompt, key and all-failing client. -/
theorem spec_C2_witness :
    (handleSubmit apiBoom true "a to-do list app" (some "gsk_test")).1 =
      Outcome.rendered
        [ (generate_web_app apiBoom "a to-do list app" (variations.getD 0 "")).1
        , (generate_web_app apiBoom "a to-do list app" (variations.getD 1 "")).1
        , (generate_web_app apiBoom "a to-do list app" (variations.getD 2 "")).1
        , (generate_web_app apiBoom "a to-do list app" (variations.getD 3 "")).1 ]
    ∧ variations =
        [ ""
        , "Make it visually appealing and use a different framework than the other versions."
        , "Focus on simplicity and performance. Use minimal dependencies."
        , "Add some creative features that might not be explicitly mentioned in the prompt." ] :=
  spec_C2_four_results apiBoom "a to-do list app" (some "gsk_test") (by decide) (by decide)

/-- C4: with the key absent, the load-time warning banner is shown, and a
submission issues no request at all and yields the blocking missing-key
error message. -/
theorem spec_C4_missing_key_blocks (api : Api) (user_prompt : String) :
    loadKeyWarning none =
        some "⚠️ GROQ_API_KEY environment variable not found. Please set it to use this app."
    ∧ handleSubmit api true user_prompt none =
        (Outcome.missingKeyError
            "Please set your GROQ_API_KEY environment variable to use this app.", []) := by
  constructor
  · rfl
  · simp [handleSubmit, pyTruthyOptStr]

/-- C9: when the key is absent and the prompt empty on the same
submission, the missing-key error is the outcome (not the empty-prompt
warning) and no request is issued: the key check takes precedence. -/
theorem spec_C9_key_check_precedence (api : Api) :
    handleSubmit api true "" none =
      (Outcome.missingKeyError
          "Please set your GROQ_API_KEY environment variable to use this app.", [])
    ∧ (handleSubmit api true "" none).1 ≠
        Outcome.emptyPromptWarning "Please enter a prompt to generate web applications." := by
  constructor
  · simp [handleSubmit, pyTruthyOptStr, pyTruthyStr]
  · simp [handleSubmit, pyTruthyOptStr, pyTruthyStr]

/-- Witness for C9 at a concrete client. -/
theorem spec_C9_witness :
    handleSubmit apiBoom true "" none =
      (Outcome.missingKeyError
          "Please set your GROQ_API_KEY environment variable to use this app.", [])
    ∧ (handleSubmit apiBoom true "" none).1 ≠
        Outcome.emptyPromptWarning "Please enter a prompt to generate web applications." :=
  spec_C9_key_check_precedence apiBoom

/-- C3: if the client call for slot i raises, slot i's result begins with
"Error generating code: ", the loop still issues all four requests, and
any client agreeing with the original on the other three requests yields
the very same results in those three slots. -/
theorem spec_C3_slot_isolation (api api' : Api) (user_prompt : String) (i : ℕ) (e : String)
    (hi : i < 4)
    (hfail : api (builtRequest user_prompt (variations.getD i "")) = ApiResult.exn e)
    (hagree : ∀ j, j < 4 → j ≠ i →
      api' (builtRequest user_prompt (variations.getD j "")) =
        api (builtRequest user_prompt (variations.getD j ""))) :
    hasErrorHead ((resultsLoop api user_prompt).1.getD i "")
    ∧ (resultsLoop api user_prompt).1.length = 4
    ∧ (resultsLoop api user_prompt).2 =
        [ builtRequest user_prompt (variations.getD 0 "")
        , builtRequest user_prompt (variations.getD 1 "")
        , builtRequest user_prompt (variations.getD 2 "")
        , builtRequest user_prompt (variations.getD 3 "") ]
    ∧ ∀ j, j < 4 → j ≠ i →
        (resultsLoop api' user_prompt).1.getD j "" =
          (resultsLoop api user_prompt).1.getD j "" := by
  refine ⟨?_, ?_, ?_, ?_⟩
  · rw [resultsLoop_eq]
    interval_cases i
    all_goals
      simp [variations, List.getD] at hfail ⊢
    all_goals
      exact ⟨e, by simp [generate_web_app, hfail]⟩
  · simp [resultsLoop_eq]
  · rw [resultsLoop_eq]
  · intro j hj hne
    rw [resultsLoop_eq, resultsLoop_eq]
    have h := hagree j hj hne
    interval_cases j
    all_goals
      simp [variations, List.getD] at h ⊢
    all_goals
      simp [generate_web_app, h]

/-- Witness for C3: a client failing exactly on slot 1 of prompt "todo",
compared with an everywhere-succeeding client agreeing off slot 1. -/
theorem spec_C3_witness :
    hasErrorHead ((resultsLoop apiMixed "todo").1.getD 1 "")
    ∧ (resultsLoop apiMixed "todo").1.length = 4
    ∧ (resultsLoop apiOk "todo").1.getD 0 "" = (resultsLoop apiMixed "todo").1.getD 0 "" := by
  have h := spec_C3_slot_isolation apiMixed apiOk "todo" 1 "Connection error."
    (by norm_num)
    (by simp [apiMixed])
    (by
      intro j hj hne
      interval_cases j
      · decide
      · exact absurd rfl hne
      · decide
      · decide)
  exact ⟨h.1, h.2.1, h.2.2.2 0 (by norm_num) (by norm_num)⟩

/-- Counterexample to C5 as stated: with the prompt empty AND the key
absent, submission shows the missing-key error, not the empty-prompt
warning — so "a warning message is shown instead" fails in that corner. -/
theorem spec_C5_counterexample :
    (handleSubmit apiBoom true "" none).1 =
        Outcome.missingKeyError
          "Please set your GROQ_API_KEY environment variable to use this app."
    ∧ (handleSubmit apiBoom true "" none).1 ≠
        Outcome.emptyPromptWarning "Please enter a prompt to generate web applications." := by
  constructor
  · simp [handleSubmit, pyTruthyStr, pyTruthyOptStr]
  · simp [handleSubmit, pyTruthyStr, pyTruthyOptStr]

/-- C5 amended: an empty prompt at submission never issues a request; the
empty-prompt warning is the message shown whenever the key is truthy (when
the key is also falsy the missing-key error takes precedence). -/
theorem spec_C5_empty_prompt (api : Api) (groq_api_key : Option String) :
    (handleSubmit api true "" groq_api_key).2 = []
    ∧ (pyTruthyOptStr groq_api_key = true →
        (handleSubmit api true "" groq_api_key).1 =
          Outcome.emptyPromptWarning "Please enter a prompt to generate web applications.") := by
  cases h : pyTruthyOptStr groq_api_key <;>
    simp [handleSubmit, pyTruthyStr, h]

/-- Witness for C5 at a present key. -/
theorem spec_C5_witness :
    (handleSubmit apiBoom true "" (some "gsk_test")).2 = []
    ∧ (handleSubmit apiBoom true "" (some "gsk_test")).1 =
        Outcome.emptyPromptWarning "Please enter a prompt to generate web applications." :=
  ⟨(spec_C5_empty_prompt apiBoom (some "gsk_test")).1,
   (spec_C5_empty_prompt apiBoom (some "gsk_test")).2 (by decide)⟩

/-- C10: the empty-prompt guard tests only Python truthiness, so a prompt
of nothing but whitespace counts as non-empty: with a truthy key the
submission runs all four calls with that whitespace string as base prompt
and no warning is shown. -/
theorem spec_C10_whitespace_prompt (api : Api) (user_prompt k : String)
    (hp : user_prompt ≠ "")
    (hws : ∀ c ∈ user_prompt.toList, c.isWhitespace)
    (hk : k ≠ "") :
    handleSubmit api true user_prompt (some k) =
      ( Outcome.rendered
          [ (generate_web_app api user_prompt (variations.getD 0 "")).1
          , (generate_web_app api user_prompt (variations.getD 1 "")).1
          , (generate_web_app api user_prompt (variations.getD 2 "")).1
          , (generate_web_app api user_prompt (variations.getD 3 "")).1 ]
      , [ builtRequest user_prompt (variations.getD 0 "")
        , builtRequest user_prompt (variations.getD 1 "")
        , builtRequest user_prompt (variations.getD 2 "")
        , builtRequest user_prompt (variations.getD 3 "") ] ) := by
  simp [handleSubmit, pyTruthyStr, pyTruthyOptStr, hp, hk, resultsLoop_eq]

/-- Witness for C10 at the one-space prompt. -/
theorem spec_C10_witness :
    handleSubmit apiBoom true " " (some "gsk_test") =
      ( Outcome.rendered
          [ (generate_web_app apiBoom " " (variations.getD 0 "")).1
          , (generate_web_app apiBoom " " (variations.getD 1 "")).1
          , (generate_web_app apiBoom " " (variations.getD 2 "")).1
          , (generate_web_app apiBoom " " (variations.getD 3 "")).1 ]
      , [ builtRequest " " (variations.getD 0 "")
        , builtRequest " " (variations.getD 1 "")
        , builtRequest " " (variations.getD 2 "")
        , builtRequest " " (variations.getD 3 "") ] ) :=
  spec_C10_whitespace_prompt apiBoom " " "gsk_test" (by decide) (by decide) (by decide)
